import Mathlib

/-!
Verification development for the crisis-watcher-satellite live-globe core:
the classification/coloring functions, the logarithmic altitude remap, the
per-tick propagation pipeline (MapLibreGlobe.tsx), the TLE parsing with its
identifier fallback, and the custom GPU point layer with its dirty-flag
buffer lifecycle (SatellitePointLayer.ts).

External library functions (satellite.js twoline2satrec / propagate /
eciToGeodetic / degreesLat / degreesLong, WebGL) are modelled abstractly as
function parameters or as an explicit handle-allocation state machine; the
repository's own orchestration code is translated directly.  JS numbers are
modelled as rationals (for the comparisons and arithmetic the code performs
exactly) and as reals where the code takes logarithms.
-/

namespace CrisisWatcher

/-- Character-list prefix test, used to build the substring test that models
JS String.prototype.includes and the literal-alternation regexps. -/
def isPrefixOfL : List Char → List Char → Bool
  | [], _ => true
  | _ :: _, [] => false
  | p :: ps, c :: cs => p == c && isPrefixOfL ps cs

/-- Substring occurrence test on character lists: pat occurs somewhere in s. -/
def containsSubL (pat : List Char) : List Char → Bool
  | [] => isPrefixOfL pat []
  | c :: cs => isPrefixOfL pat (c :: cs) || containsSubL pat cs

/-- String substring test, modelling JS s.includes(pat). -/
def containsSub (s pat : String) : Bool :=
  containsSubL pat.data s.data

/-- Character-wise ASCII uppercasing, modelling JS s.toUpperCase() on the
ASCII range relevant to the classification patterns. -/
def toUpperCase (s : String) : String :=
  ⟨s.data.map Char.toUpper⟩

/-- Strip leading and trailing whitespace, modelling JS s.trim(). -/
def jsTrim (s : String) : String :=
  ⟨((s.data.dropWhile Char.isWhitespace).reverse.dropWhile Char.isWhitespace).reverse⟩

/-- Object categories, from the return type of pickCategory in
MapLibreGlobe.tsx. -/
inductive Category where
  | NAV | GEO | PAYLOAD | ROCKET | DEBRIS | OTHER
  deriving DecidableEq, Repr

/-- The GNSS constellation name patterns from the regex
(GPS|NAVSTAR|GLONASS|GALILEO|BEIDOU|BDS|IRNSS|QZSS) in pickCategory. -/
def navPatterns : List String :=
  ["GPS", "NAVSTAR", "GLONASS", "GALILEO", "BEIDOU", "BDS", "IRNSS", "QZSS"]

/-- Case-insensitive test of the navigation-constellation regex against a
name: the patterns are alternation of uppercase literals, so the /i regex
test is equivalent to a substring search in the uppercased name. -/
def isNavName (name : String) : Bool :=
  navPatterns.any (fun p => containsSub (toUpperCase name) p)

/-- pickCategory from MapLibreGlobe.tsx: NAV by name regex, else GEO when
altKm exceeds 30000, else by PAYLOAD/ROCKET/DEBRIS substrings of the
uppercased object-type string, else OTHER. -/
def pickCategory (objectType name : String) (altKm : ℚ) : Category :=
  let t := toUpperCase objectType
  if isNavName name then .NAV
  else if altKm > 30000 then .GEO
  else if containsSub t "PAYLOAD" then .PAYLOAD
  else if containsSub t "ROCKET" then .ROCKET
  else if containsSub t "DEBRIS" then .DEBRIS
  else .OTHER

/-- RGBA color with 0-255 channels. -/
abbrev RGBA := ℕ × ℕ × ℕ × ℕ

/-- pickColorByType from MapLibreGlobe.tsx: category-first coloring, the
switch over pickCategory with NAV red, GEO yellow, OTHER orange and the
PAYLOAD/ROCKET/DEBRIS cases falling through to the orange default. -/
def pickColorByType (objectType name : String) (altKm : ℚ) : RGBA :=
  match pickCategory objectType name altKm with
  | .NAV => (255, 80, 80, 255)
  | .GEO => (255, 220, 0, 255)
  | .OTHER => (255, 150, 50, 255)
  | .PAYLOAD => (255, 150, 50, 255)
  | .ROCKET => (255, 150, 50, 255)
  | .DEBRIS => (255, 150, 50, 255)

/-- The constant category-to-color table asserted by the spec: each category
maps to a fixed RGBA constant. -/
def colorOfCategory : Category → RGBA
  | .NAV => (255, 80, 80, 255)
  | .GEO => (255, 220, 0, 255)
  | _ => (255, 150, 50, 255)

/-- The pure object-type cascade asserted by the spec for the last
precedence level: category derived from PAYLOAD/ROCKET/DEBRIS substrings of
the type string, else OTHER. -/
def specTypeCategory (objectType : String) : Category :=
  let t := toUpperCase objectType
  if containsSub t "PAYLOAD" then .PAYLOAD
  else if containsSub t "ROCKET" then .ROCKET
  else if containsSub t "DEBRIS" then .DEBRIS
  else .OTHER

/-- Shell minimum: raise minimum display altitude to about 200 km. -/
def ATMOSPHERE_TOP_M : ℝ := 200000

/-- Visual shell thickness outside the atmosphere. -/
def SHELL_THICKNESS_M : ℝ := 80000

/-- Normalization ceiling, about 100,000 km. -/
def MAX_ALT_M : ℝ := 100000000

/-- scaleAltitudeLog from MapLibreGlobe.tsx: clamp the altitude in meters to
[0, MAX_ALT_M], take Math.log1p normalized by log1p of the ceiling, and place
the result inside the visual shell. -/
noncomputable def scaleAltitudeLog (altM : ℝ) : ℝ :=
  let a := max 0 (min altM MAX_ALT_M)
  let t := Real.log (1 + a) / Real.log (1 + MAX_ALT_M)
  ATMOSPHERE_TOP_M + t * SHELL_THICKNESS_M

lemma log1p_MAX_pos : 0 < Real.log (1 + MAX_ALT_M) := by
  apply Real.log_pos
  rw [MAX_ALT_M]
  norm_num

lemma scaleAltitudeLog_lower (x : ℝ) : ATMOSPHERE_TOP_M ≤ scaleAltitudeLog x := by
  rw [scaleAltitudeLog]
  have hc : (0 : ℝ) ≤ max 0 (min x MAX_ALT_M) := le_max_left _ _
  have hlog : 0 ≤ Real.log (1 + max 0 (min x MAX_ALT_M)) :=
    Real.log_nonneg (by linarith)
  have ht : 0 ≤ Real.log (1 + max 0 (min x MAX_ALT_M)) / Real.log (1 + MAX_ALT_M) :=
    div_nonneg hlog log1p_MAX_pos.le
  have hs : (0 : ℝ) ≤ SHELL_THICKNESS_M := by rw [SHELL_THICKNESS_M]; norm_num
  nlinarith

/-- C1: scaleAltitudeLog is monotone non-decreasing over its whole domain,
maps true altitude 0 to the shell minimum ATMOSPHERE_TOP_M, and maps
MAX_ALT_M to the shell maximum ATMOSPHERE_TOP_M + SHELL_THICKNESS_M.  The
Lean function takes the single altitude argument, so its output depends on
nothing else by construction. -/
theorem scaleAltitudeLog_spec :
    (∀ a b : ℝ, a ≤ b → scaleAltitudeLog a ≤ scaleAltitudeLog b) ∧
    scaleAltitudeLog 0 = ATMOSPHERE_TOP_M ∧
    scaleAltitudeLog MAX_ALT_M = ATMOSPHERE_TOP_M + SHELL_THICKNESS_M := by
  have hMpos : (0 : ℝ) ≤ MAX_ALT_M := by rw [MAX_ALT_M]; norm_num
  have hS : (0 : ℝ) ≤ SHELL_THICKNESS_M := by rw [SHELL_THICKNESS_M]; norm_num
  refine ⟨?_, ?_, ?_⟩
  · intro a b hab
    rw [scaleAltitudeLog, scaleAltitudeLog]
    have hca : (0 : ℝ) ≤ max 0 (min a MAX_ALT_M) := le_max_left _ _
    have hcab : max 0 (min a MAX_ALT_M) ≤ max 0 (min b MAX_ALT_M) :=
      max_le_max le_rfl (min_le_min hab le_rfl)
    have hlog : Real.log (1 + max 0 (min a MAX_ALT_M)) ≤
        Real.log (1 + max 0 (min b MAX_ALT_M)) :=
      Real.log_le_log (by linarith) (by linarith)
    have hdiv := (div_le_div_iff_of_pos_right log1p_MAX_pos).mpr hlog
    have := mul_le_mul_of_nonneg_right hdiv hS
    linarith
  · rw [scaleAltitudeLog]
    rw [min_eq_left hMpos, max_self]
    simp [Real.log_one]
  · rw [scaleAltitudeLog]
    rw [min_self, max_eq_right hMpos]
    rw [div_self log1p_MAX_pos.ne']
    ring

/-- Witness for C1: the monotonicity conjunct applied at 0 ≤ 1. -/
theorem scaleAltitudeLog_spec_witness :
    scaleAltitudeLog 0 ≤ scaleAltitudeLog 1 :=
  scaleAltitudeLog_spec.1 0 1 (by norm_num)

/-- C2: fixed classification precedence.  For every object-type string, name
and true altitude, pickCategory returns NAV whenever the name matches the
navigation pattern, regardless of altitude and type; else GEO whenever the
altitude exceeds 30,000 km, regardless of type; else the category given by
the PAYLOAD/ROCKET/DEBRIS substring cascade over the type string, else
OTHER (specTypeCategory). -/
theorem pickCategory_precedence (t n : String) (a : ℚ) :
    (isNavName n = true → pickCategory t n a = .NAV) ∧
    (isNavName n = false → 30000 < a → pickCategory t n a = .GEO) ∧
    (isNavName n = false → a ≤ 30000 → pickCategory t n a = specTypeCategory t) := by
  refine ⟨fun h => ?_, fun h h2 => ?_, fun h h2 => ?_⟩
  · simp [pickCategory, h]
  · simp [pickCategory, h, h2]
  · simp [pickCategory, specTypeCategory, h, not_lt.mpr h2]

/-- Witness for C2: each precedence level exercised at a concrete input —
a navigation name at low altitude with a DEBRIS type string is NAV, a
non-navigation name above 30,000 km with a DEBRIS type string is GEO, and a
non-navigation low object falls through to the type cascade. -/
theorem pickCategory_precedence_witness :
    pickCategory "DEBRIS" "BEIDOU-3 M21" 400 = .NAV ∧
    pickCategory "DEBRIS" "COSMOS 2501" 35786 = .GEO ∧
    pickCategory "ROCKET BODY" "COSMOS 1408 DEB" 500 = specTypeCategory "ROCKET BODY" :=
  ⟨(pickCategory_precedence "DEBRIS" "BEIDOU-3 M21" 400).1 (by decide),
   (pickCategory_precedence "DEBRIS" "COSMOS 2501" 35786).2.1 (by decide) (by norm_num),
   (pickCategory_precedence "ROCKET BODY" "COSMOS 1408 DEB" 500).2.2 (by decide) (by norm_num)⟩

/-- C7: color is a pure function of category only — pickColorByType factors
through pickCategory followed by the constant category-to-color table, so
any two inputs with the same category get the same RGBA constant. -/
theorem pickColorByType_factors (t n : String) (a : ℚ) (t2 n2 : String) (a2 : ℚ) :
    pickColorByType t n a = colorOfCategory (pickCategory t n a) ∧
    (pickCategory t n a = pickCategory t2 n2 a2 →
      pickColorByType t n a = pickColorByType t2 n2 a2) := by
  have key : ∀ (u v : String) (x : ℚ),
      pickColorByType u v x = colorOfCategory (pickCategory u v x) := by
    intro u v x
    cases h : pickCategory u v x <;> simp [pickColorByType, colorOfCategory, h]
  exact ⟨key t n a, fun h => by rw [key, key, h]⟩

/-- Witness for C7: two inputs that classify identically (both NAV, at very
different altitudes and type strings) receive the same color. -/
theorem pickColorByType_factors_witness :
    pickColorByType "PAYLOAD" "GPS BIIR-2" 100 = pickColorByType "DEBRIS" "NAVSTAR 5" 40000 :=
  (pickColorByType_factors "PAYLOAD" "GPS BIIR-2" 100 "DEBRIS" "NAVSTAR 5" 40000).2 (by decide)

/-- Raw two-line element entry, type Tle of MapLibreGlobe.tsx: an optional
name and the two element lines. -/
structure Tle where
  name : Option String
  l1 : String
  l2 : String

/-- One parsed entry of the satrecs list: derived identifier, the
propagator-internal record (abstract type R, from twoline2satrec), and the
optional catalog number read off the record.  The source names the record
field rec; that name is taken by the recursor in Lean, so it is satrec
here. -/
structure SatEntry (R : Type) where
  id : String
  satrec : R
  satnum : Option Nat

/-- Identifier derivation from satrecs in MapLibreGlobe.tsx:
t.name, else satnum.toString(), else a fresh random token
(Math.random().toString(36).slice(2), modelled by an arbitrary per-entry
token source indexed by entry position). -/
def mkId (rand : Nat → String) (i : Nat) (t : Tle) (satnum : Option Nat) : String :=
  match t.name with
  | some nm => nm
  | none =>
    match satnum with
    | some k => toString k
    | none => rand i

/-- The satrecs construction from MapLibreGlobe.tsx: take the first 300 raw
entries, parse each inside try/catch (twoline2satrec modelled by the
abstract fallible parse, which also yields the satnum field of the record),
replace a failed entry by null, and filter the nulls out. -/
def satrecs (R : Type) (parse : String → String → Option (R × Option Nat))
    (rand : Nat → String) (tles : List Tle) : List (SatEntry R) :=
  (((tles.take 300).enum).map fun p =>
    match parse p.2.l1 p.2.l2 with
    | none => none
    | some q => some (⟨mkId rand p.1 p.2 q.2, q.1, q.2⟩ : SatEntry R)).reduceOption

/-- C9: parsing takes only the first 300 raw entries, skips each failing
entry without failing the batch, and returns exactly the successfully
parsed entries in input order, so the output length is at most
min 300 (input length). -/
theorem satrecs_spec (R : Type) (parse : String → String → Option (R × Option Nat))
    (rand : Nat → String) (tles : List Tle) :
    satrecs R parse rand tles
      = ((tles.take 300).enum).filterMap (fun p => (parse p.2.l1 p.2.l2).map
          (fun q => ⟨mkId rand p.1 p.2 q.2, q.1, q.2⟩)) ∧
    (satrecs R parse rand tles).length ≤ min 300 tles.length := by
  have heq : satrecs R parse rand tles
      = ((tles.take 300).enum).filterMap (fun p => (parse p.2.l1 p.2.l2).map
          (fun q => ⟨mkId rand p.1 p.2 q.2, q.1, q.2⟩)) := by
    rw [satrecs]
    simp only [List.reduceOption, List.filterMap_map]
    apply List.filterMap_congr
    intro p _
    simp only [Function.comp_apply, id_eq]
    cases h : parse p.2.l1 p.2.l2 <;> simp [h]
  refine ⟨heq, ?_⟩
  rw [heq]
  calc (((tles.take 300).enum).filterMap _).length
      ≤ ((tles.take 300).enum).length := List.length_filterMap_le _ _
    _ = min 300 tles.length := by simp

/-- Geodetic position returned by eciToGeodetic (satellite.js, external):
latitude and longitude in radians and height in kilometers.  The code reads
gd.height through the nullish fallback gd.height ?? 0, so the height is
modelled as optional. -/
structure GeoPos where
  latitude : ℚ
  longitude : ℚ
  height : Option ℚ

/-- One element of the per-tick data array in MapLibreGlobe.tsx: a display
position of longitude, latitude and remapped altitude in meters, plus an
RGBA color. -/
structure RenderPoint where
  lon : ℚ
  lat : ℚ
  altScaledM : ℝ
  color : RGBA

/-- The object-type lookup (s.satnum && typesBySatnum[s.satnum]) || '' from
the tick: the empty string when satnum is absent or 0 (JS falsy) or the map
has no entry. -/
def typOf (typesBySatnum : Nat → Option String) (satnum : Option Nat) : String :=
  match satnum with
  | none => ""
  | some k => if k = 0 then "" else (typesBySatnum k).getD ""

/-- The tick body of MapLibreGlobe.tsx that builds the per-tick data array:
map each parsed entry through propagate at the frozen timestamp (abstract
external function of the record alone), drop it when no position comes
back, else convert to geodetic coordinates, clamp the height in meters at
0, remap it through scaleAltitudeLog, and color via pickColorByType; the
nulls of failed propagations are filtered out.  The debug-only category
counters and console logging of the source do not contribute to the data
array and are omitted. -/
noncomputable def tick (R P : Type) (propagateFn : R → Option P)
    (eciToGeodetic : P → GeoPos) (degreesLat degreesLong : ℚ → ℚ)
    (typesBySatnum : Nat → Option String) (ss : List (SatEntry R)) : List RenderPoint :=
  (ss.map fun s =>
    match propagateFn s.satrec with
    | none => none
    | some pos =>
      let gd := eciToGeodetic pos
      let lat := degreesLat gd.latitude
      let lon := degreesLong gd.longitude
      let altM : ℚ := max 0 ((gd.height.getD 0) * 1000)
      let altScaledM := scaleAltitudeLog (altM : ℝ)
      let typ := typOf typesBySatnum s.satnum
      let color := pickColorByType typ s.id (gd.height.getD 0)
      some ⟨lon, lat, altScaledM, color⟩).reduceOption

lemma length_reduceOption_map {α β : Type} (f : α → Option β) (l : List α) :
    ((l.map f).reduceOption).length = (l.filter fun a => (f a).isSome).length := by
  induction l with
  | nil => rfl
  | cons a l ih =>
    cases h : f a <;>
      simp [List.reduceOption_cons_of_none, List.reduceOption_cons_of_some, h, ih,
        List.filter_cons]

/-- C6: each tick produces one RenderPoint per successfully propagated
entry and none for an entry whose propagation returns no position, so the
number of RenderPoints equals the number of entries whose propagation
succeeds and in particular is at most the number of parsed records. -/
theorem tick_count (R P : Type) (propagateFn : R → Option P)
    (eciToGeodetic : P → GeoPos) (degreesLat degreesLong : ℚ → ℚ)
    (typesBySatnum : Nat → Option String) (ss : List (SatEntry R)) :
    (tick R P propagateFn eciToGeodetic degreesLat degreesLong typesBySatnum ss).length
      = (ss.filter fun s => (propagateFn s.satrec).isSome).length ∧
    (tick R P propagateFn eciToGeodetic degreesLat degreesLong typesBySatnum ss).length
      ≤ ss.length := by
  have heq : (tick R P propagateFn eciToGeodetic degreesLat degreesLong typesBySatnum ss).length
      = (ss.filter fun s => (propagateFn s.satrec).isSome).length := by
    rw [tick, length_reduceOption_map]
    congr 1
    apply List.filter_congr
    intro s _
    cases h : propagateFn s.satrec <;> simp [h]
  exact ⟨heq, heq ▸ List.length_filter_le _ _⟩

/-- Counterexample to C3: a propagated object whose geodetic conversion
yields the negative height -1 km is not discarded — the tick still emits a
RenderPoint for it (the data array has length 1, not 0), because the code
clamps altM at 0 instead of dropping the object. -/
theorem tick_emits_negative_height_point :
    (tick Unit Unit (fun _ => some ()) (fun _ => ⟨0, 0, some (-1)⟩) id id
      (fun _ => none) [⟨"A", (), none⟩]).length = 1 := by
  rw [tick]
  simp [List.reduceOption_cons_of_some]

/-- C3 (amended): the height that reaches a RenderPoint is clamped, not
filtered — every emitted point's altitude is scaleAltitudeLog of some
nonnegative altitude in meters, hence at least the shell minimum; an
object with a negative geodetic height is still emitted, carrying the
clamped altitude scaleAltitudeLog 0. -/
theorem tick_altitude_clamped (R P : Type) (propagateFn : R → Option P)
    (eciToGeodetic : P → GeoPos) (degreesLat degreesLong : ℚ → ℚ)
    (typesBySatnum : Nat → Option String) (ss : List (SatEntry R)) :
    ∀ rp ∈ tick R P propagateFn eciToGeodetic degreesLat degreesLong typesBySatnum ss,
      (∃ a : ℚ, 0 ≤ a ∧ rp.altScaledM = scaleAltitudeLog (a : ℝ)) ∧
      ATMOSPHERE_TOP_M ≤ rp.altScaledM := by
  intro rp hmem
  rw [tick, List.reduceOption_mem_iff] at hmem
  rcases List.mem_map.mp hmem with ⟨s, _, hs⟩
  cases h : propagateFn s.satrec with
  | none => rw [h] at hs; exact absurd hs (by simp)
  | some pos =>
    rw [h] at hs
    have hrp : rp = ⟨degreesLong ((eciToGeodetic pos).longitude),
        degreesLat ((eciToGeodetic pos).latitude),
        scaleAltitudeLog ((max 0 (((eciToGeodetic pos).height.getD 0) * 1000) : ℚ)),
        pickColorByType (typOf typesBySatnum s.satnum) s.id
          ((eciToGeodetic pos).height.getD 0)⟩ := by
      exact (Option.some_inj.mp hs).symm
    refine ⟨⟨max 0 (((eciToGeodetic pos).height.getD 0) * 1000), le_max_left _ _, ?_⟩, ?_⟩
    · rw [hrp]
    · rw [hrp]
      exact scaleAltitudeLog_lower _

/-- Witness for C3 (amended): the theorem applied to a singleton pipeline
whose geodetic height is 400 km, at its unique emitted point. -/
theorem tick_altitude_clamped_witness :
    (∃ a : ℚ, 0 ≤ a ∧
      (RenderPoint.mk 0 0 (scaleAltitudeLog ((400 : ℚ) * 1000 : ℚ)) (255, 150, 50, 255)).altScaledM
        = scaleAltitudeLog (a : ℝ)) ∧
    ATMOSPHERE_TOP_M ≤
      (RenderPoint.mk 0 0 (scaleAltitudeLog ((400 : ℚ) * 1000 : ℚ)) (255, 150, 50, 255)).altScaledM := by
  have happ := tick_altitude_clamped Unit Unit (fun _ => some ())
    (fun _ => ⟨0, 0, some 400⟩) id id (fun _ => none) [⟨"A", (), none⟩]
    (RenderPoint.mk 0 0 (scaleAltitudeLog ((400 : ℚ) * 1000 : ℚ)) (255, 150, 50, 255))
  apply happ
  rw [tick]
  simp [List.reduceOption_cons_of_some, typOf, pickColorByType, pickCategory]
  norm_num
  decide

lemma mkId_rand_irrelevant (rand1 rand2 : Nat → String) (i : Nat) (t : Tle)
    (sn : Option Nat) (h : t.name ≠ none ∨ sn ≠ none) :
    mkId rand1 i t sn = mkId rand2 i t sn := by
  obtain ⟨nm, l1, l2⟩ := t
  cases nm with
  | some x => rfl
  | none =>
    cases sn with
    | some k => rfl
    | none =>
      rcases h with h1 | h2
      · exact absurd rfl h1
      · exact absurd rfl h2

/-- C8: determinism of the full per-tick pipeline at a frozen timestamp.
The only non-deterministic input is the random identifier fallback taken
when a parsed entry has neither a name nor a catalog number; when no entry
among the first 300 relies on it, two runs with arbitrary different random
token sources (two page loads) build identical satrecs and hence identical
RenderPoint collections, positions and colors in the same order. -/
theorem pipeline_deterministic (R P : Type)
    (parse : String → String → Option (R × Option Nat))
    (rand1 rand2 : Nat → String) (tles : List Tle)
    (propagateFn : R → Option P) (eciToGeodetic : P → GeoPos)
    (degreesLat degreesLong : ℚ → ℚ) (typesBySatnum : Nat → Option String)
    (h : ∀ p ∈ (tles.take 300).enum, ∀ r sn, parse p.2.l1 p.2.l2 = some (r, sn) →
          p.2.name ≠ none ∨ sn ≠ none) :
    tick R P propagateFn eciToGeodetic degreesLat degreesLong typesBySatnum
        (satrecs R parse rand1 tles)
      = tick R P propagateFn eciToGeodetic degreesLat degreesLong typesBySatnum
          (satrecs R parse rand2 tles) := by
  suffices hs : satrecs R parse rand1 tles = satrecs R parse rand2 tles by rw [hs]
  rw [satrecs, satrecs]
  congr 1
  apply List.map_congr_left
  intro p hp
  cases hparse : parse p.2.l1 p.2.l2 with
  | none => rfl
  | some q =>
    obtain ⟨r, sn⟩ := q
    have hns := h p hp r sn hparse
    show some (⟨mkId rand1 p.1 p.2 sn, r, sn⟩ : SatEntry R)
      = some ⟨mkId rand2 p.1 p.2 sn, r, sn⟩
    rw [mkId_rand_irrelevant rand1 rand2 p.1 p.2 sn hns]

/-- Witness for C8: a one-element pipeline whose entry carries an explicit
name, run against two different random token sources; the hypothesis that
no entry uses the fallback holds because the name is present. -/
theorem pipeline_deterministic_witness :
    tick Unit Unit (fun _ => some ()) (fun _ => ⟨1, 2, some 400⟩) id id (fun _ => none)
        (satrecs Unit (fun _ _ => some ((), some 7)) (fun _ => "aaa")
          [⟨some "ISS (ZARYA)", "L1", "L2"⟩])
      = tick Unit Unit (fun _ => some ()) (fun _ => ⟨1, 2, some 400⟩) id id (fun _ => none)
          (satrecs Unit (fun _ _ => some ((), some 7)) (fun _ => "bbb")
            [⟨some "ISS (ZARYA)", "L1", "L2"⟩]) := by
  apply pipeline_deterministic
  intro p hp r sn _
  rw [List.take_of_length_le (by simp), List.enum] at hp
  simp only [List.enumFrom, List.mem_singleton] at hp
  subst hp
  left
  simp

/-- Point record accepted by setPositions, type SatPoint of
SatellitePointLayer.ts: a Mercator world position and optional color
channels. -/
structure SatPoint where
  x : ℚ
  y : ℚ
  z : ℚ
  r : Option ℚ
  g : Option ℚ
  b : Option ℚ

/-- The captured mutable state of one createSatellitePointLayer closure,
with the WebGL side made explicit: glAttached models the gl handle being
non-null, the three Option Nat fields are the GPU handles (program,
position buffer, color buffer), positions/colors are the CPU-side arrays,
needsUpload is the dirty flag, gpuPositions/gpuColors are the buffer
contents last uploaded with bufferData, liveHandles is the set of GPU
handles created and not yet deleted, and nextHandle feeds allocation. -/
structure LayerState where
  glAttached : Bool
  program : Option Nat
  buffer : Option Nat
  colorBuffer : Option Nat
  positions : List ℚ
  colors : List ℚ
  needsUpload : Bool
  gpuPositions : List ℚ
  gpuColors : List ℚ
  liveHandles : List Nat
  nextHandle : Nat

/-- The freshly created layer: every closure variable null/empty, the
dirty flag clear. -/
def initLayer : LayerState :=
  { glAttached := false, program := none, buffer := none, colorBuffer := none,
    positions := [], colors := [], needsUpload := false,
    gpuPositions := [], gpuColors := [], liveHandles := [], nextHandle := 0 }

/-- onAdd from SatellitePointLayer.ts: store the gl handle, create the
shader program, create the position buffer and upload the current
positions, create the color buffer and upload the current colors.  Handles
are allocated in that order. -/
def onAdd (s : LayerState) : LayerState :=
  { s with glAttached := true,
           program := some s.nextHandle,
           buffer := some (s.nextHandle + 1),
           colorBuffer := some (s.nextHandle + 2),
           gpuPositions := s.positions,
           gpuColors := s.colors,
           liveHandles := s.liveHandles ++ [s.nextHandle, s.nextHandle + 1, s.nextHandle + 2],
           nextHandle := s.nextHandle + 3 }

/-- gl.deleteBuffer / gl.deleteProgram guarded by the if (handle) check:
remove the handle from the live set when present. -/
def deleteHandle (h : Option Nat) (live : List Nat) : List Nat :=
  match h with
  | none => live
  | some k => live.erase k

/-- onRemove from SatellitePointLayer.ts: return immediately when gl is
null; otherwise delete the position buffer and the program, then null out
buffer, colorBuffer, program, gl and map.  The code contains no
deleteBuffer call for colorBuffer. -/
def onRemove (s : LayerState) : LayerState :=
  if s.glAttached = false then s
  else
    { s with liveHandles := deleteHandle s.program (deleteHandle s.buffer s.liveHandles),
             buffer := none, colorBuffer := none, program := none, glAttached := false }

/-- Per-point color channels with the p.r ?? 0 defaulting of setPositions. -/
def pointColor (p : SatPoint) : ℚ × ℚ × ℚ :=
  (p.r.getD 0, p.g.getD 0, p.b.getD 0)

/-- setPositions from SatellitePointLayer.ts: rebuild the flat position and
color arrays (three floats per point, missing channels defaulting to 0),
then mark the buffers dirty.  The map.triggerRepaint call only requests a
redraw from the host and is external. -/
def setPositions (ps : List SatPoint) (s : LayerState) : LayerState :=
  { s with
    positions := ps.flatMap (fun p => [p.x, p.y, p.z]),
    colors := ps.flatMap (fun p => [(pointColor p).1, (pointColor p).2.1, (pointColor p).2.2]),
    needsUpload := true }

/-- render from SatellitePointLayer.ts, reduced to its buffer effects: a
no-op when gl, program or buffer is null; otherwise, when the dirty flag is
set, upload the position array and (when the color buffer exists) the color
array with bufferData and clear the flag.  The returned Bool reports
whether this draw call performed an upload; binding, uniforms and
drawArrays do not change the modelled state. -/
def render (s : LayerState) : LayerState × Bool :=
  if s.glAttached = false ∨ s.program = none ∨ s.buffer = none then (s, false)
  else if s.needsUpload then
    ({ s with gpuPositions := s.positions,
              gpuColors := if s.colorBuffer.isSome then s.colors else s.gpuColors,
              needsUpload := false }, true)
  else (s, false)

/-- Number of uploads performed over n consecutive render calls. -/
def renderUploads : Nat → LayerState → Nat
  | 0, _ => 0
  | n + 1, s => (if (render s).2 then 1 else 0) + renderUploads n (render s).1

lemma render_clean (s : LayerState) (h : s.needsUpload = false) :
    render s = (s, false) := by
  rw [render]
  split
  · rfl
  · rw [h]
    simp

lemma renderUploads_clean (n : Nat) (s : LayerState) (h : s.needsUpload = false) :
    renderUploads n s = 0 := by
  induction n with
  | zero => rfl
  | succ n ih => rw [renderUploads, render_clean s h]; simpa using ih

/-- C4: the dirty-flag contract.  On an attached layer, setPositions sets
the dirty flag; the next render call uploads both the position and the
color buffer and clears the flag; and across any number of further render
calls with no intervening setPositions, exactly one upload happens in
total — never one per draw call. -/
theorem dirty_flag_contract (s : LayerState) (ps : List SatPoint) (n : Nat)
    (h : s.glAttached = true ∧ s.program.isSome = true ∧ s.buffer.isSome = true ∧
      s.colorBuffer.isSome = true) :
    (setPositions ps s).needsUpload = true ∧
    (render (setPositions ps s)).2 = true ∧
    (render (setPositions ps s)).1.gpuPositions = (setPositions ps s).positions ∧
    (render (setPositions ps s)).1.gpuColors = (setPositions ps s).colors ∧
    (render (setPositions ps s)).1.needsUpload = false ∧
    renderUploads (n + 1) (setPositions ps s) = 1 := by
  obtain ⟨h1, h2, h3, h4⟩ := h
  have h2' : s.program ≠ none := by rwa [Option.isSome_iff_ne_none] at h2
  have h3' : s.buffer ≠ none := by rwa [Option.isSome_iff_ne_none] at h3
  have hrender : render (setPositions ps s)
      = ({ setPositions ps s with
            gpuPositions := (setPositions ps s).positions,
            gpuColors := (setPositions ps s).colors,
            needsUpload := false }, true) := by
    rw [render, if_neg, if_pos]
    · simp [setPositions, h4]
    · rfl
    · simp [setPositions, h1, h2', h3']
  refine ⟨rfl, ?_, ?_, ?_, ?_, ?_⟩
  · rw [hrender]
  · rw [hrender]
  · rw [hrender]
  · rw [hrender]
  · rw [renderUploads, hrender]
    have : renderUploads n ({ setPositions ps s with
        gpuPositions := (setPositions ps s).positions,
        gpuColors := (setPositions ps s).colors,
        needsUpload := false }) = 0 :=
      renderUploads_clean n _ rfl
    simp [this]

/-- Witness for C4: a freshly attached layer given an empty point list and
one extra render call after the uploading one. -/
theorem dirty_flag_contract_witness :
    (setPositions [] (onAdd initLayer)).needsUpload = true ∧
    (render (setPositions [] (onAdd initLayer))).2 = true ∧
    (render (setPositions [] (onAdd initLayer))).1.gpuPositions
      = (setPositions [] (onAdd initLayer)).positions ∧
    (render (setPositions [] (onAdd initLayer))).1.gpuColors
      = (setPositions [] (onAdd initLayer)).colors ∧
    (render (setPositions [] (onAdd initLayer))).1.needsUpload = false ∧
    renderUploads (1 + 1) (setPositions [] (onAdd initLayer)) = 1 :=
  dirty_flag_contract (onAdd initLayer) [] 1 ⟨rfl, rfl, rfl, rfl⟩

/-- C5: evaluation of the disposal path.  Attaching the fresh layer creates
the program handle 0, the position-buffer handle 1 and the color-buffer
handle 2; onRemove then deletes the position buffer and the program but
leaves the color-buffer handle 2 alive, so not every handle created during
attach is released.  The safety half of the claim does hold: onRemove on a
never-attached layer returns immediately and changes nothing. -/
theorem onRemove_leaks_colorBuffer :
    (onAdd initLayer).colorBuffer = some 2 ∧
    (onAdd initLayer).liveHandles = [0, 1, 2] ∧
    (onRemove (onAdd initLayer)).liveHandles = [2] ∧
    onRemove initLayer = initLayer :=
  ⟨rfl, rfl, rfl, rfl⟩

/-- The base-color selection of the fragment shader in
SatellitePointLayer.ts: v_col when its channel sum is positive, else the
constant fallback u_color. -/
def fragBase (vcol ucol : ℚ × ℚ × ℚ) : ℚ × ℚ × ℚ :=
  if 0 < vcol.1 + vcol.2.1 + vcol.2.2 then vcol else ucol

/-- C10: at setPositions, omitted channels default to 0 (the stored color
stream is exactly the per-point defaulted triples); in the fragment shader
a point whose channel sum is ≤ 0 gets the constant fallback color — so a
point explicitly colored black (0,0,0) is rendered with the fallback, not
black — while a point with positive channel sum keeps its own color. -/
theorem setPositions_default_and_fragBase (ps : List SatPoint) (s : LayerState)
    (p : SatPoint) (u v : ℚ × ℚ × ℚ) :
    ((setPositions ps s).colors
      = ps.flatMap fun q => [(pointColor q).1, (pointColor q).2.1, (pointColor q).2.2]) ∧
    (p.r = none → p.g = none → p.b = none → pointColor p = (0, 0, 0)) ∧
    (v.1 + v.2.1 + v.2.2 ≤ 0 → fragBase v u = u) ∧
    fragBase (0, 0, 0) u = u ∧
    (0 < v.1 + v.2.1 + v.2.2 → fragBase v u = v) := by
  refine ⟨rfl, fun hr hg hb => ?_, fun hle => ?_, ?_, fun hpos => ?_⟩
  · simp [pointColor, hr, hg, hb]
  · simp [fragBase, not_lt.mpr hle]
  · simp [fragBase]
  · simp [fragBase, hpos]

/-- Witness for C10: a point with all channels omitted stores (0,0,0); a
sum-zero color falls back to the amber constant; a red point keeps red. -/
theorem setPositions_default_and_fragBase_witness :
    pointColor ⟨0, 0, 0, none, none, none⟩ = (0, 0, 0) ∧
    fragBase (0, 0, 0) (1, 7/10, 1/5) = (1, 7/10, 1/5) ∧
    fragBase (1, 0, 0) (1, 7/10, 1/5) = (1, 0, 0) := by
  have h := setPositions_default_and_fragBase [] initLayer
    ⟨0, 0, 0, none, none, none⟩ (1, 7/10, 1/5) (1, 0, 0)
  exact ⟨h.2.1 rfl rfl rfl, h.2.2.2.1, h.2.2.2.2 (by norm_num)⟩

end CrisisWatcher
